import Mathlib

/-!
Verification development for the Nkulisa Burials membership site (`src/app.py`).

The repository is a single-file Flask application.  The claims under study
concern the member-registration workflow (`register`, lines 110-147), the
contact workflow (`contact`, lines 87-108), the `Member` data model
(lines 69-74) and the Firebase mirror-store integration (lines 49-64 and
132-142).  We give a shallow embedding: pure Lean data types for the form
submissions, the relational member store, and the mirror store; the external
services (database commit, mail relay, mirror push) are modelled by explicit
fault parameters, and an uncaught Python exception is an `Except.error` that
propagates out of the embedded workflow.
-/

namespace Nkulisa

/-- Model of Python `str.lower()` as used on the submitted email: lower-case
every character (the inputs of interest are basic latin, matching
`Char.toLower`). -/
def pyLower (s : String) : String := ⟨s.data.map Char.toLower⟩

/-- Stripping both ends of a character list: drop leading whitespace, then
drop trailing whitespace (via reversal). -/
def stripChars (l : List Char) : List Char :=
  ((l.dropWhile Char.isWhitespace).reverse.dropWhile Char.isWhitespace).reverse

/-- Model of Python `str.strip()` with no argument: remove leading and
trailing whitespace. -/
def pyStrip (s : String) : String := ⟨stripChars s.data⟩

/-- The normalized email computed at `app.py:115`:
`request.form["email"].strip().lower()`. -/
def normEmail (s : String) : String := pyLower (pyStrip s)

/-- A registration form submission (`request.form` fields read at
`app.py:113-116`). -/
structure RegForm where
  name : String
  email : String
  phone : String
  package : String
deriving DecidableEq

/-- The `Member` model (`app.py:69-74`): an integer primary key and four
non-null string columns, `email` carrying a unique constraint. -/
structure Member where
  id : Nat
  full_name : String
  email : String
  phone : String
  package : String
deriving DecidableEq

/-- The relational member store: the rows of the `member` table plus the next
auto-increment primary key. -/
structure MemberStore where
  members : List Member
  nextId : Nat
deriving DecidableEq

/-- A denormalized record pushed to the Firebase mirror store
(`app.py:135-140`). -/
structure MirrorRecord where
  full_name : String
  email : String
  phone : String
  package : String
deriving DecidableEq

/-- The mirror store: the `members` collection, a list of pushed records
(push keys are generated, so order of pushes is all that matters). -/
structure MirrorStore where
  entries : List MirrorRecord
deriving DecidableEq

/-- The duplicate pre-check `Member.query.filter_by(email=email).first()`
(`app.py:118`): the first stored row whose `email` column equals the
normalized submitted email. -/
def firstByEmail (st : MemberStore) (email : String) : Option Member :=
  st.members.find? (fun m => m.email == email)

/-- The primary write `db.session.add(member); db.session.commit()`
(`app.py:129-130`).  `dbFault` injects a storage-layer failure other than a
duplicate (e.g. connectivity), which the commit raises; otherwise the commit
enforces the unique constraint on `email` (`app.py:72`) and either raises an
integrity error or appends the new row with the generated id. -/
def storeInsert (dbFault : Option String) (st : MemberStore)
    (full_name email phone package : String) : Except String MemberStore :=
  match dbFault with
  | some msg => Except.error msg
  | none =>
    if st.members.any (fun m => m.email == email) then
      Except.error "UNIQUE constraint failed: member.email"
    else
      Except.ok { members := st.members ++ [⟨st.nextId, full_name, email, phone, package⟩],
                  nextId := st.nextId + 1 }

/-- The flash/redirect outcome reported to the requester by the registration
workflow. -/
inductive RegOutcome where
  | registrationSucceeded
  | duplicateEmail
deriving DecidableEq

/-- The observable result of one registration request that returned normally:
the flashed outcome, the member store, the mirror store, and the log lines
printed by the swallowed mirror-write handler. -/
structure RegResult where
  outcome : RegOutcome
  store : MemberStore
  mirror : MirrorStore
  log : List String
deriving DecidableEq

/-- The member constructed and persisted for a fresh-email submission
(`app.py:122-127`): normalized fields, id generated by the store. -/
def persistedMember (form : RegForm) (st : MemberStore) : Member :=
  ⟨st.nextId, pyStrip form.name, normEmail form.email, pyStrip form.phone, form.package⟩

/-- The POST branch of the `register` route (`app.py:112-145`).
`mirrorInitialized` models `firebase_admin._apps` being non-empty;
`mirrorFault` injects an exception raised by the Firebase push, which the
`try/except` at `app.py:133-142` catches and logs; `dbFault` injects a
primary-store failure at commit, which nothing catches, so it propagates as
`Except.error`. -/
def register (form : RegForm) (st : MemberStore) (mir : MirrorStore)
    (mirrorInitialized : Bool) (mirrorFault : Option String)
    (dbFault : Option String) : Except String RegResult :=
  let full_name := pyStrip form.name
  let phone := pyStrip form.phone
  let email := normEmail form.email
  let package := form.package
  if (firstByEmail st email).isSome then
    Except.ok { outcome := .duplicateEmail, store := st, mirror := mir, log := [] }
  else
    match storeInsert dbFault st full_name email phone package with
    | Except.error msg => Except.error msg
    | Except.ok st' =>
      let pushed :=
        if mirrorInitialized then
          match mirrorFault with
          | some e => (mir, ["Firebase write error: " ++ e])
          | none => (⟨mir.entries ++ [⟨full_name, email, phone, package⟩]⟩, ([] : List String))
        else (mir, [])
      Except.ok { outcome := .registrationSucceeded, store := st',
                  mirror := pushed.1, log := pushed.2 }

/-- The mirror store after the best-effort secondary write of a successful
registration (`app.py:132-142`): a record is pushed only when the integration
is initialized and the push does not raise. -/
def mirrorAfter (form : RegForm) (mir : MirrorStore) (mirrorInitialized : Bool)
    (mirrorFault : Option String) : MirrorStore :=
  if mirrorInitialized then
    match mirrorFault with
    | some _ => mir
    | none => ⟨mir.entries ++
        [⟨pyStrip form.name, normEmail form.email, pyStrip form.phone, form.package⟩]⟩
  else mir

/-- The log lines printed by the swallowed mirror-write handler
(`app.py:141-142`) of a successful registration. -/
def logAfter (mirrorInitialized : Bool) (mirrorFault : Option String) : List String :=
  if mirrorInitialized then
    match mirrorFault with
    | some e => ["Firebase write error: " ++ e]
    | none => []
  else []

/-- A contact form submission (`request.form` fields read at
`app.py:94-98`). -/
structure ContactForm where
  name : String
  email : String
  message : String
deriving DecidableEq

/-- The flash outcome of the contact workflow. -/
inductive ContactOutcome where
  | sent
  | notificationFailed (msg : String)
deriving DecidableEq

/-- An outbound mail message as composed at `app.py:91-100`. -/
structure MailMessage where
  subject : String
  recipients : List String
  body : String
deriving DecidableEq

/-- The plain-text body assembled at `app.py:94-99`, embedding the submitted
fields verbatim. -/
def composeBody (form : ContactForm) : String :=
  "Name: " ++ form.name ++ "\nEmail: " ++ form.email ++ "\n\nMessage:\n"
    ++ form.message ++ "\n"

/-- The POST branch of the `contact` route (`app.py:89-106`).  `mailFault`
injects an exception raised by `mail.send`; the `try/except` turns it into a
danger flash carrying the error text.  The second component is the trace of
outbound send attempts. -/
def contact (form : ContactForm) (mailUser : String) (mailFault : Option String) :
    ContactOutcome × List MailMessage :=
  let msg : MailMessage :=
    ⟨"New Contact Message - Nkulisa Burials NPC", [mailUser], composeBody form⟩
  match mailFault with
  | some e => (.notificationFailed ("Failed to send message: " ++ e), [msg])
  | none => (.sent, [msg])

/-- Member-store states reachable through the registration workflow, starting
from the empty table created by `db.create_all()` (`app.py:156-157`; SQLite
auto-increment ids start at 1). -/
inductive Reachable : MemberStore → Prop where
  | init : Reachable ⟨[], 1⟩
  | step (st : MemberStore) (form : RegForm) (mir : MirrorStore)
      (mirrorInitialized : Bool) (mirrorFault dbFault : Option String)
      (res : RegResult) :
      Reachable st →
      register form st mir mirrorInitialized mirrorFault dbFault = Except.ok res →
      Reachable res.store

/-- The interleaving of two registration requests A and B in which both
duplicate pre-checks (`app.py:118`) read the store before either commit
(`app.py:130`) runs: the §5 check-then-act race.  Each step is the
corresponding step of `register`; the mirror write is omitted as irrelevant
to the stores.  Returns A's result, B's result, and the final store. -/
def raceBothCheckFirst (fA fB : RegForm) (st : MemberStore) :
    Except String RegOutcome × Except String RegOutcome × MemberStore :=
  let eA := normEmail fA.email
  let eB := normEmail fB.email
  let dupA := (firstByEmail st eA).isSome
  let dupB := (firstByEmail st eB).isSome
  if dupA then
    if dupB then (Except.ok .duplicateEmail, Except.ok .duplicateEmail, st)
    else
      match storeInsert none st (pyStrip fB.name) eB (pyStrip fB.phone) fB.package with
      | Except.error msg => (Except.ok .duplicateEmail, Except.error msg, st)
      | Except.ok st' => (Except.ok .duplicateEmail, Except.ok .registrationSucceeded, st')
  else
    match storeInsert none st (pyStrip fA.name) eA (pyStrip fA.phone) fA.package with
    | Except.error msg =>
      if dupB then (Except.error msg, Except.ok .duplicateEmail, st)
      else
        match storeInsert none st (pyStrip fB.name) eB (pyStrip fB.phone) fB.package with
        | Except.error msg2 => (Except.error msg, Except.error msg2, st)
        | Except.ok st' => (Except.error msg, Except.ok .registrationSucceeded, st')
    | Except.ok st1 =>
      if dupB then (Except.ok .registrationSucceeded, Except.ok .duplicateEmail, st1)
      else
        match storeInsert none st1 (pyStrip fB.name) eB (pyStrip fB.phone) fB.package with
        | Except.error msg => (Except.ok .registrationSucceeded, Except.error msg, st1)
        | Except.ok st2 =>
          (Except.ok .registrationSucceeded, Except.ok .registrationSucceeded, st2)

/-! Helper lemmas about the normalization functions. -/

lemma toLower_eq_of_upper {c : Char} (h : 65 ≤ c.toNat ∧ c.toNat ≤ 90) :
    Char.toLower c = Char.ofNat (c.toNat + 32) := by
  unfold Char.toLower
  rw [if_pos]
  exact ⟨h.1, h.2⟩

lemma toLower_eq_of_not_upper {c : Char} (h : ¬(65 ≤ c.toNat ∧ c.toNat ≤ 90)) :
    Char.toLower c = c := by
  unfold Char.toLower
  rw [if_neg]
  exact h

lemma toLower_idem (c : Char) : Char.toLower (Char.toLower c) = Char.toLower c := by
  by_cases h : 65 ≤ c.toNat ∧ c.toNat ≤ 90
  · rw [toLower_eq_of_upper h]
    obtain ⟨h1, h2⟩ := h
    generalize c.toNat = n at h1 h2
    interval_cases n <;> decide
  · rw [toLower_eq_of_not_upper h, toLower_eq_of_not_upper h]

lemma isWhitespace_false_of_ge {c : Char} (h : 65 ≤ c.toNat) :
    c.isWhitespace = false := by
  unfold Char.isWhitespace
  have h1 : c ≠ ' ' := by intro e; subst e; exact absurd h (by decide)
  have h2 : c ≠ '\t' := by intro e; subst e; exact absurd h (by decide)
  have h3 : c ≠ '\r' := by intro e; subst e; exact absurd h (by decide)
  have h4 : c ≠ '\n' := by intro e; subst e; exact absurd h (by decide)
  simp [h1, h2, h3, h4]

lemma isWhitespace_toLower (c : Char) :
    (Char.toLower c).isWhitespace = c.isWhitespace := by
  by_cases h : 65 ≤ c.toNat ∧ c.toNat ≤ 90
  · rw [toLower_eq_of_upper h, isWhitespace_false_of_ge h.1]
    obtain ⟨h1, h2⟩ := h
    generalize c.toNat = n at h1 h2
    interval_cases n <;> decide
  · rw [toLower_eq_of_not_upper h]

lemma stripChars_eq_rdropWhile (l : List Char) :
    stripChars l = List.rdropWhile Char.isWhitespace (l.dropWhile Char.isWhitespace) :=
  rfl

lemma stripChars_idem (l : List Char) : stripChars (stripChars l) = stripChars l := by
  rw [stripChars_eq_rdropWhile, stripChars_eq_rdropWhile]
  set w := Char.isWhitespace
  set u := l.dropWhile w with hu
  set r := List.rdropWhile w u with hr
  have hdrop : r.dropWhile w = r := by
    rw [List.dropWhile_eq_self_iff]
    intro hl
    obtain ⟨t, ht⟩ := List.rdropWhile_prefix w u
    rw [← hr] at ht
    have hu_len : 0 < u.length := by
      rw [← ht, List.length_append]
      omega
    have hget : u.get ⟨0, hu_len⟩ = r.get ⟨0, hl⟩ := by
      simp only [List.get_eq_getElem, ← ht]
      exact List.getElem_append_left hl
    rw [← hget]
    exact List.dropWhile_get_zero_not w l hu_len
  rw [hdrop, hr]
  exact List.rdropWhile_idempotent w u

lemma pyStrip_idem (s : String) : pyStrip (pyStrip s) = pyStrip s :=
  congrArg String.mk (stripChars_idem s.data)

lemma pyLower_idem (s : String) : pyLower (pyLower s) = pyLower s := by
  show String.mk ((s.data.map Char.toLower).map Char.toLower)
      = String.mk (s.data.map Char.toLower)
  rw [List.map_map]
  exact congrArg String.mk (List.map_congr_left (fun c _ => toLower_idem c))

lemma stripChars_map_toLower (l : List Char) :
    stripChars (l.map Char.toLower) = (stripChars l).map Char.toLower := by
  have hp : (Char.isWhitespace ∘ Char.toLower) = Char.isWhitespace :=
    funext isWhitespace_toLower
  unfold stripChars
  rw [List.dropWhile_map, hp, ← List.map_reverse, List.dropWhile_map, hp, ← List.map_reverse]

lemma pyStrip_pyLower_comm (s : String) : pyStrip (pyLower s) = pyLower (pyStrip s) :=
  congrArg String.mk (stripChars_map_toLower s.data)

lemma normEmail_idem (s : String) : normEmail (normEmail s) = normEmail s := by
  unfold normEmail
  rw [pyStrip_pyLower_comm, pyStrip_idem, pyLower_idem]

/-! Evaluation lemmas for the registration workflow. -/

lemma firstByEmail_eq_none {st : MemberStore} {e : String}
    (h : ∀ m ∈ st.members, m.email ≠ e) :
    firstByEmail st e = none := by
  unfold firstByEmail
  rw [List.find?_eq_none]
  intro m hm
  simpa using h m hm

lemma firstByEmail_isSome {st : MemberStore} {e : String}
    (h : ∃ m ∈ st.members, m.email = e) :
    (firstByEmail st e).isSome = true := by
  unfold firstByEmail
  rw [List.find?_isSome]
  obtain ⟨m, hm, he⟩ := h
  exact ⟨m, hm, by simpa using he⟩

lemma register_of_dup (form : RegForm) (st : MemberStore) (mir : MirrorStore)
    (mi : Bool) (mf dbF : Option String)
    (h : ∃ m ∈ st.members, m.email = normEmail form.email) :
    register form st mir mi mf dbF =
      Except.ok ⟨.duplicateEmail, st, mir, []⟩ := by
  unfold register
  simp [firstByEmail_isSome h]

lemma register_of_fresh (form : RegForm) (st : MemberStore) (mir : MirrorStore)
    (mi : Bool) (mf : Option String)
    (h : ∀ m ∈ st.members, m.email ≠ normEmail form.email) :
    register form st mir mi mf none =
      Except.ok ⟨.registrationSucceeded,
        ⟨st.members ++ [persistedMember form st], st.nextId + 1⟩,
        mirrorAfter form mir mi mf, logAfter mi mf⟩ := by
  have hany : (st.members.any (fun m => m.email == normEmail form.email)) = false := by
    rw [List.any_eq_false]
    intro m hm
    simpa using h m hm
  unfold register storeInsert
  cases mi <;> cases mf <;>
    simp [firstByEmail_eq_none h, hany, mirrorAfter, logAfter, persistedMember]

lemma register_of_fresh_dbFault (form : RegForm) (st : MemberStore)
    (mir : MirrorStore) (mi : Bool) (mf : Option String) (msg : String)
    (h : ∀ m ∈ st.members, m.email ≠ normEmail form.email) :
    register form st mir mi mf (some msg) = Except.error msg := by
  unfold register storeInsert
  simp [firstByEmail_eq_none h]

lemma any_email_eq_false {l : List Member} {e : String}
    (h : ∀ m ∈ l, m.email ≠ e) :
    (l.any fun m => m.email == e) = false := by
  rw [List.any_eq_false]
  intro m hm
  simpa using h m hm

/-- Every reachable member store holds only normalized emails, pairwise
distinct as stored. -/
lemma reachable_invariant (st : MemberStore) (h : Reachable st) :
    (∀ m ∈ st.members, normEmail m.email = m.email) ∧
    st.members.Pairwise (fun m1 m2 => m1.email ≠ m2.email) := by
  induction h with
  | init => exact ⟨by simp, by simp⟩
  | step st form mir mi mf dbF res hst hreg ih =>
    by_cases hdup : ∃ m ∈ st.members, m.email = normEmail form.email
    · rw [register_of_dup form st mir mi mf dbF hdup] at hreg
      injection hreg with hres
      rw [← hres]
      exact ih
    · push_neg at hdup
      cases dbF with
      | some msg =>
        rw [register_of_fresh_dbFault form st mir mi mf msg hdup] at hreg
        exact Except.noConfusion hreg
      | none =>
        rw [register_of_fresh form st mir mi mf hdup] at hreg
        injection hreg with hres
        rw [← hres]
        constructor
        · intro m hm
          rcases List.mem_append.mp hm with hm1 | hm2
          · exact ih.1 m hm1
          · have hm3 : m = persistedMember form st := by simpa using hm2
            rw [hm3]
            exact normEmail_idem form.email
        · rw [List.pairwise_append]
          refine ⟨ih.2, by simp, ?_⟩
          intro a ha b hb
          have hb2 : b = persistedMember form st := by simpa using hb
          rw [hb2]
          exact hdup a ha

/-- C1: a registration whose normalized email is fresh persists a new Member
whose full_name and phone are the submitted values trimmed (not
case-altered) and whose email is the submitted value trimmed and
lower-cased, and reports success. -/
theorem register_fresh_creates_normalized_member
    (form : RegForm) (st : MemberStore) (mir : MirrorStore)
    (mi : Bool) (mf : Option String)
    (h : ∀ m ∈ st.members, m.email ≠ normEmail form.email) :
    ∃ res, register form st mir mi mf none = Except.ok res ∧
      res.outcome = RegOutcome.registrationSucceeded ∧
      res.store.members = st.members ++
        [⟨st.nextId, pyStrip form.name, normEmail form.email,
          pyStrip form.phone, form.package⟩] :=
  ⟨_, register_of_fresh form st mir mi mf h, rfl, rfl⟩

/-- Witness for C1: the spec's Jane Doe example — the persisted Member has
full_name "Jane Doe" and email "jane@example.com". -/
theorem register_fresh_creates_normalized_member_witness :
    (∀ m ∈ (MemberStore.mk [] 1).members,
        m.email ≠ normEmail " Jane@Example.com ") ∧
    ∃ res, register ⟨" Jane Doe ", " Jane@Example.com ", "0712345678", "Gold"⟩
        ⟨[], 1⟩ ⟨[]⟩ false none none = Except.ok res ∧
      res.outcome = RegOutcome.registrationSucceeded ∧
      res.store.members =
        [⟨1, "Jane Doe", "jane@example.com", "0712345678", "Gold"⟩] := by
  refine ⟨by simp, ?_⟩
  obtain ⟨res, h1, h2, h3⟩ :=
    register_fresh_creates_normalized_member
      ⟨" Jane Doe ", " Jane@Example.com ", "0712345678", "Gold"⟩
      ⟨[], 1⟩ ⟨[]⟩ false none (by simp)
  exact ⟨res, h1, h2, by rw [h3]; rfl⟩

/-- C2: a registration whose normalized email matches the email of a stored
Member — even when the raw input differs in case or whitespace — reports
DuplicateEmail and leaves the member store unchanged. -/
theorem register_existing_email_duplicate
    (form : RegForm) (st : MemberStore) (mir : MirrorStore)
    (mi : Bool) (mf dbF : Option String)
    (h : ∃ m ∈ st.members, m.email = normEmail form.email) :
    register form st mir mi mf dbF =
      Except.ok ⟨RegOutcome.duplicateEmail, st, mir, []⟩ :=
  register_of_dup form st mir mi mf dbF h

/-- Witness for C2: " JANE@Example.COM " collides with the stored
"jane@example.com"; no row is added. -/
theorem register_existing_email_duplicate_witness :
    (∃ m ∈ (MemberStore.mk
        [⟨1, "Jane Doe", "jane@example.com", "0712345678", "Gold"⟩] 2).members,
        m.email = normEmail " JANE@Example.COM ") ∧
    register ⟨"Someone Else", " JANE@Example.COM ", "0700000000", "Silver"⟩
        ⟨[⟨1, "Jane Doe", "jane@example.com", "0712345678", "Gold"⟩], 2⟩
        ⟨[]⟩ true none none =
      Except.ok ⟨RegOutcome.duplicateEmail,
        ⟨[⟨1, "Jane Doe", "jane@example.com", "0712345678", "Gold"⟩], 2⟩,
        ⟨[]⟩, []⟩ := by
  have hdup : ∃ m ∈ (MemberStore.mk
      [⟨1, "Jane Doe", "jane@example.com", "0712345678", "Gold"⟩] 2).members,
      m.email = normEmail " JANE@Example.COM " :=
    ⟨⟨1, "Jane Doe", "jane@example.com", "0712345678", "Gold"⟩, by simp, by decide⟩
  exact ⟨hdup, register_existing_email_duplicate _ _ _ _ _ _ hdup⟩

/-- C3: once the primary write succeeds the workflow reports success and the
persisted row is fixed, whatever the mirror store does: an uninitialized
integration skips the push, and a raised push error is caught and logged;
neither changes the outcome, the member store, or rolls anything back. -/
theorem register_mirror_isolation
    (form : RegForm) (st : MemberStore) (mir : MirrorStore)
    (mi : Bool) (mf : Option String)
    (h : ∀ m ∈ st.members, m.email ≠ normEmail form.email) :
    ∃ res, register form st mir mi mf none = Except.ok res ∧
      res.outcome = RegOutcome.registrationSucceeded ∧
      res.store = ⟨st.members ++ [persistedMember form st], st.nextId + 1⟩ ∧
      (mi = false → res.mirror = mir ∧ res.log = []) ∧
      (∀ e, mf = some e → res.mirror = mir ∧
        (mi = true → res.log = ["Firebase write error: " ++ e])) := by
  refine ⟨_, register_of_fresh form st mir mi mf h, rfl, rfl, ?_, ?_⟩
  · intro hmi
    subst hmi
    exact ⟨rfl, rfl⟩
  · intro e he
    subst he
    cases mi
    · exact ⟨rfl, fun hh => Bool.noConfusion hh⟩
    · exact ⟨rfl, fun _ => rfl⟩

/-- Witness for C3: an initialized mirror whose push raises is logged; the
outcome and the persisted row are unchanged. -/
theorem register_mirror_isolation_witness :
    (∀ m ∈ (MemberStore.mk [] 1).members,
        m.email ≠ normEmail " Jane@Example.com ") ∧
    ∃ res, register ⟨" Jane Doe ", " Jane@Example.com ", "0712345678", "Gold"⟩
        ⟨[], 1⟩ ⟨[]⟩ true (some "network down") none = Except.ok res ∧
      res.outcome = RegOutcome.registrationSucceeded ∧
      res.store = ⟨[persistedMember
        ⟨" Jane Doe ", " Jane@Example.com ", "0712345678", "Gold"⟩ ⟨[], 1⟩], 2⟩ ∧
      (true = false → res.mirror = ⟨[]⟩ ∧ res.log = []) ∧
      (∀ e, (some "network down" : Option String) = some e → res.mirror = ⟨[]⟩ ∧
        (true = true → res.log = ["Firebase write error: " ++ e])) := by
  refine ⟨by simp, ?_⟩
  obtain ⟨res, h1, h2, h3, h4, h5⟩ :=
    register_mirror_isolation
      ⟨" Jane Doe ", " Jane@Example.com ", "0712345678", "Gold"⟩
      ⟨[], 1⟩ ⟨[]⟩ true (some "network down") (by simp)
  exact ⟨res, h1, h2, h3, h4, h5⟩

/-- C4: in every member-store state reachable through the registration
workflow, no two Members share the same normalized (trimmed, lower-cased)
email. -/
theorem reachable_no_duplicate_normalized_email
    (st : MemberStore) (h : Reachable st) :
    st.members.Pairwise (fun m1 m2 => normEmail m1.email ≠ normEmail m2.email) := by
  obtain ⟨hnorm, hpair⟩ := reachable_invariant st h
  refine List.Pairwise.imp_of_mem ?_ hpair
  intro a b ha hb hne
  rw [hnorm a ha, hnorm b hb]
  exact hne

/-- Witness for C4: the store reached by one Jane Doe registration satisfies
the invariant. -/
theorem reachable_no_duplicate_normalized_email_witness :
    List.Pairwise (fun m1 m2 => normEmail m1.email ≠ normEmail m2.email)
      (MemberStore.mk
        [⟨1, "Jane Doe", "jane@example.com", "0712345678", "Gold"⟩] 2).members := by
  have h2 : Reachable ⟨[⟨1, "Jane Doe", "jane@example.com", "0712345678", "Gold"⟩], 2⟩ :=
    Reachable.step ⟨[], 1⟩
      ⟨" Jane Doe ", " Jane@Example.com ", "0712345678", "Gold"⟩
      ⟨[]⟩ false none none
      ⟨.registrationSucceeded,
        ⟨[⟨1, "Jane Doe", "jane@example.com", "0712345678", "Gold"⟩], 2⟩, ⟨[]⟩, []⟩
      Reachable.init (by rfl)
  exact reachable_no_duplicate_normalized_email _ h2

/-- C5 counterexample: two registrations race on the same normalized email
from the empty store; both pre-checks pass, A commits, and B's commit hits
the unique constraint — but the code catches nothing there, so B's result is
the raw storage error, not the DuplicateEmail outcome the claim asserts. -/
theorem race_loser_error_counterexample :
    raceBothCheckFirst
        ⟨" Jane Doe ", " Jane@Example.com ", "0712345678", "Gold"⟩
        ⟨"Jane Again", "jane@example.com", "0700000000", "Silver"⟩
        ⟨[], 1⟩ =
      (Except.ok RegOutcome.registrationSucceeded,
       Except.error "UNIQUE constraint failed: member.email",
       ⟨[⟨1, "Jane Doe", "jane@example.com", "0712345678", "Gold"⟩], 2⟩) ∧
    (Except.error "UNIQUE constraint failed: member.email"
        : Except String RegOutcome) ≠
      Except.ok RegOutcome.duplicateEmail :=
  ⟨rfl, fun h => Except.noConfusion h⟩

/-- C5 amended: in the check-then-act race on one normalized fresh email,
exactly one Member with that email is persisted (the storage-layer unique
constraint rejects the second insert, never a silent second row), but the
loser's constraint violation propagates as an uncaught storage error rather
than being translated into the DuplicateEmail outcome. -/
theorem race_one_insert_loser_uncaught_error
    (fA fB : RegForm) (st : MemberStore)
    (hsame : normEmail fB.email = normEmail fA.email)
    (hfresh : ∀ m ∈ st.members, m.email ≠ normEmail fA.email) :
    raceBothCheckFirst fA fB st =
      (Except.ok RegOutcome.registrationSucceeded,
       Except.error "UNIQUE constraint failed: member.email",
       ⟨st.members ++ [persistedMember fA st], st.nextId + 1⟩) ∧
    ((st.members ++ [persistedMember fA st]).filter
        (fun m => m.email == normEmail fA.email)).length = 1 := by
  have hfind : firstByEmail st (normEmail fA.email) = none :=
    firstByEmail_eq_none hfresh
  have hanyA : (st.members.any fun m => m.email == normEmail fA.email) = false :=
    any_email_eq_false hfresh
  have hfilter : st.members.filter (fun m => m.email == normEmail fA.email) = [] := by
    rw [List.filter_eq_nil_iff]
    intro m hm
    simpa using hfresh m hm
  constructor
  · unfold raceBothCheckFirst storeInsert
    simp [hsame, hfind, hanyA, persistedMember]
  · rw [List.filter_append, hfilter]
    simp [persistedMember]

/-- Witness for the amended C5: the concrete Jane Doe race. -/
theorem race_one_insert_loser_uncaught_error_witness :
    (normEmail "jane@example.com" = normEmail " Jane@Example.com ") ∧
    (∀ m ∈ (MemberStore.mk [] 1).members,
        m.email ≠ normEmail " Jane@Example.com ") ∧
    (raceBothCheckFirst
        ⟨" Jane Doe ", " Jane@Example.com ", "0712345678", "Gold"⟩
        ⟨"Jane Again", "jane@example.com", "0700000000", "Silver"⟩
        ⟨[], 1⟩ =
      (Except.ok RegOutcome.registrationSucceeded,
       Except.error "UNIQUE constraint failed: member.email",
       ⟨[⟨1, "Jane Doe", "jane@example.com", "0712345678", "Gold"⟩], 2⟩) ∧
      (([⟨1, "Jane Doe", "jane@example.com", "0712345678", "Gold"⟩]
          : List Member).filter
        (fun m => m.email == normEmail " Jane@Example.com ")).length = 1) := by
  refine ⟨by decide, by simp, ?_⟩
  obtain ⟨h1, h2⟩ :=
    race_one_insert_loser_uncaught_error
      ⟨" Jane Doe ", " Jane@Example.com ", "0712345678", "Gold"⟩
      ⟨"Jane Again", "jane@example.com", "0700000000", "Silver"⟩
      ⟨[], 1⟩ (by decide) (by simp)
  constructor
  · rw [h1]
    rfl
  · rw [show ([⟨1, "Jane Doe", "jane@example.com", "0712345678", "Gold"⟩]
        : List Member) = [] ++ [persistedMember
          ⟨" Jane Doe ", " Jane@Example.com ", "0712345678", "Gold"⟩ ⟨[], 1⟩] from rfl]
    exact h2

/-- C6: a contact submission makes exactly one outbound send attempt; a
raised mail error yields NotificationFailed carrying the error text, success
yields the success flash. -/
theorem contact_single_attempt
    (form : ContactForm) (mailUser : String) (mailFault : Option String) :
    (contact form mailUser mailFault).2 =
      [⟨"New Contact Message - Nkulisa Burials NPC", [mailUser], composeBody form⟩] ∧
    (contact form mailUser mailFault).1 =
      (match mailFault with
       | some e => ContactOutcome.notificationFailed ("Failed to send message: " ++ e)
       | none => ContactOutcome.sent) := by
  cases mailFault <;> exact ⟨rfl, rfl⟩

/-- C7: a primary-store failure other than a duplicate is not caught by the
workflow: the error propagates out unhandled and no success or duplicate
outcome is reported. -/
theorem register_primary_fault_propagates
    (form : RegForm) (st : MemberStore) (mir : MirrorStore)
    (mi : Bool) (mf : Option String) (msg : String)
    (h : ∀ m ∈ st.members, m.email ≠ normEmail form.email) :
    register form st mir mi mf (some msg) = Except.error msg ∧
    ∀ res : RegResult, register form st mir mi mf (some msg) ≠ Except.ok res := by
  have he := register_of_fresh_dbFault form st mir mi mf msg h
  exact ⟨he, fun res hcontra => Except.noConfusion (he.symm.trans hcontra)⟩

/-- Witness for C7: a connectivity failure at commit propagates. -/
theorem register_primary_fault_propagates_witness :
    (∀ m ∈ (MemberStore.mk [] 1).members,
        m.email ≠ normEmail " Jane@Example.com ") ∧
    (register ⟨" Jane Doe ", " Jane@Example.com ", "0712345678", "Gold"⟩
        ⟨[], 1⟩ ⟨[]⟩ true none (some "could not connect to server") =
      Except.error "could not connect to server" ∧
    ∀ res : RegResult,
      register ⟨" Jane Doe ", " Jane@Example.com ", "0712345678", "Gold"⟩
        ⟨[], 1⟩ ⟨[]⟩ true none (some "could not connect to server") ≠
        Except.ok res) := by
  refine ⟨by simp, ?_⟩
  exact register_primary_fault_propagates
    ⟨" Jane Doe ", " Jane@Example.com ", "0712345678", "Gold"⟩
    ⟨[], 1⟩ ⟨[]⟩ true none "could not connect to server" (by simp)

/-- C8 counterexample: the workflow performs no non-emptiness validation: a
submission whose name and phone are whitespace-only (non-empty raw strings)
is accepted and persists a Member with empty full_name and empty phone, a
state reachable through the workflow. -/
theorem register_persists_empty_fields_counterexample :
    Reachable ⟨[⟨1, "", "x@y.z", "", "Gold"⟩], 2⟩ ∧
    ∃ m ∈ (MemberStore.mk [⟨1, "", "x@y.z", "", "Gold"⟩] 2).members,
      m.full_name = "" ∧ m.phone = "" := by
  refine ⟨Reachable.step ⟨[], 1⟩ ⟨" ", "x@y.z", " ", "Gold"⟩ ⟨[]⟩ false none none
      ⟨.registrationSucceeded, ⟨[⟨1, "", "x@y.z", "", "Gold"⟩], 2⟩, ⟨[]⟩, []⟩
      Reachable.init (by rfl), ?_⟩
  exact ⟨⟨1, "", "x@y.z", "", "Gold"⟩, by simp, rfl, rfl⟩

/-- C8 amended: every Member the workflow persists has full_name and phone
equal to the submitted values trimmed of surrounding whitespace; the code
enforces no non-emptiness, so these fields are non-empty exactly when the
trimmed submissions are. -/
theorem register_persisted_fields_are_trimmed
    (form : RegForm) (st : MemberStore) (mir : MirrorStore)
    (mi : Bool) (mf : Option String)
    (h : ∀ m ∈ st.members, m.email ≠ normEmail form.email) :
    ∃ res, register form st mir mi mf none = Except.ok res ∧
      res.store.members = st.members ++ [persistedMember form st] ∧
      (persistedMember form st).full_name = pyStrip form.name ∧
      (persistedMember form st).phone = pyStrip form.phone ∧
      ((persistedMember form st).full_name ≠ "" ↔ pyStrip form.name ≠ "") ∧
      ((persistedMember form st).phone ≠ "" ↔ pyStrip form.phone ≠ "") :=
  ⟨_, register_of_fresh form st mir mi mf h, rfl, rfl, rfl, Iff.rfl, Iff.rfl⟩

/-- Witness for the amended C8: the whitespace-only submission persists empty
trimmed fields. -/
theorem register_persisted_fields_are_trimmed_witness :
    (∀ m ∈ (MemberStore.mk [] 1).members, m.email ≠ normEmail "x@y.z") ∧
    ∃ res, register ⟨" ", "x@y.z", " ", "Gold"⟩ ⟨[], 1⟩ ⟨[]⟩ false none none =
        Except.ok res ∧
      res.store.members = [] ++ [persistedMember ⟨" ", "x@y.z", " ", "Gold"⟩ ⟨[], 1⟩] ∧
      (persistedMember ⟨" ", "x@y.z", " ", "Gold"⟩ ⟨[], 1⟩).full_name =
        pyStrip " " ∧
      (persistedMember ⟨" ", "x@y.z", " ", "Gold"⟩ ⟨[], 1⟩).phone = pyStrip " " ∧
      ((persistedMember ⟨" ", "x@y.z", " ", "Gold"⟩ ⟨[], 1⟩).full_name ≠ "" ↔
        pyStrip " " ≠ "") ∧
      ((persistedMember ⟨" ", "x@y.z", " ", "Gold"⟩ ⟨[], 1⟩).phone ≠ "" ↔
        pyStrip " " ≠ "") := by
  refine ⟨by simp, ?_⟩
  exact register_persisted_fields_are_trimmed
    ⟨" ", "x@y.z", " ", "Gold"⟩ ⟨[], 1⟩ ⟨[]⟩ false none (by simp)

/-- C9: when the mirror write runs, the pushed record's full_name, email,
phone and package equal the corresponding fields of the Member just
persisted — the normalized values, not the raw submission. -/
theorem register_mirror_copy_matches_member
    (form : RegForm) (st : MemberStore) (mir : MirrorStore)
    (h : ∀ m ∈ st.members, m.email ≠ normEmail form.email) :
    ∃ res m e, register form st mir true none none = Except.ok res ∧
      res.store.members = st.members ++ [m] ∧
      res.mirror.entries = mir.entries ++ [e] ∧
      e.full_name = m.full_name ∧ e.email = m.email ∧
      e.phone = m.phone ∧ e.package = m.package :=
  ⟨_, persistedMember form st,
    ⟨pyStrip form.name, normEmail form.email, pyStrip form.phone, form.package⟩,
    register_of_fresh form st mir true none h, rfl, rfl, rfl, rfl, rfl, rfl⟩

/-- Witness for C9: the Jane Doe registration with an initialized mirror
pushes exactly the persisted normalized fields. -/
theorem register_mirror_copy_matches_member_witness :
    (∀ m ∈ (MemberStore.mk [] 1).members,
        m.email ≠ normEmail " Jane@Example.com ") ∧
    ∃ res m e, register ⟨" Jane Doe ", " Jane@Example.com ", "0712345678", "Gold"⟩
          ⟨[], 1⟩ ⟨[]⟩ true none none = Except.ok res ∧
      res.store.members = [] ++ [m] ∧
      res.mirror.entries = [] ++ [e] ∧
      e.full_name = m.full_name ∧ e.email = m.email ∧
      e.phone = m.phone ∧ e.package = m.package := by
  refine ⟨by simp, ?_⟩
  exact register_mirror_copy_matches_member
    ⟨" Jane Doe ", " Jane@Example.com ", "0712345678", "Gold"⟩
    ⟨[], 1⟩ ⟨[]⟩ (by simp)

/-- C10: a registration rejected by the pre-insert existence check leaves
both the member store and the mirror store unchanged: no mirror write is
attempted on the early duplicate return. -/
theorem register_duplicate_leaves_stores_unchanged
    (form : RegForm) (st : MemberStore) (mir : MirrorStore)
    (mi : Bool) (mf dbF : Option String)
    (h : ∃ m ∈ st.members, m.email = normEmail form.email) :
    ∃ res, register form st mir mi mf dbF = Except.ok res ∧
      res.outcome = RegOutcome.duplicateEmail ∧
      res.store = st ∧ res.mirror = mir :=
  ⟨_, register_of_dup form st mir mi mf dbF h, rfl, rfl, rfl⟩

/-- Witness for C10: a duplicate submission against an initialized mirror
leaves the mirror's entries untouched. -/
theorem register_duplicate_leaves_stores_unchanged_witness :
    (∃ m ∈ (MemberStore.mk
        [⟨1, "Jane Doe", "jane@example.com", "0712345678", "Gold"⟩] 2).members,
        m.email = normEmail "jane@example.com") ∧
    ∃ res, register ⟨"Jane Again", "jane@example.com", "0700000000", "Silver"⟩
        ⟨[⟨1, "Jane Doe", "jane@example.com", "0712345678", "Gold"⟩], 2⟩
        ⟨[⟨"Jane Doe", "jane@example.com", "0712345678", "Gold"⟩]⟩
        true none none = Except.ok res ∧
      res.outcome = RegOutcome.duplicateEmail ∧
      res.store = ⟨[⟨1, "Jane Doe", "jane@example.com", "0712345678", "Gold"⟩], 2⟩ ∧
      res.mirror = ⟨[⟨"Jane Doe", "jane@example.com", "0712345678", "Gold"⟩]⟩ := by
  have hdup : ∃ m ∈ (MemberStore.mk
      [⟨1, "Jane Doe", "jane@example.com", "0712345678", "Gold"⟩] 2).members,
      m.email = normEmail "jane@example.com" :=
    ⟨⟨1, "Jane Doe", "jane@example.com", "0712345678", "Gold"⟩, by simp, by decide⟩
  exact ⟨hdup, register_duplicate_leaves_stores_unchanged _ _ _ _ _ _ hdup⟩

end Nkulisa
